import Mathlib

/-!
Shallow embedding of the subscriber client of the market-data replay system
(repository abhimanyu891998/MVPminus0.5version), centred on
src/client-nextjs/src/hooks/useWebSocket.ts and the dashboard state it
drives.  Timestamps (ISO-8601 strings in the wire format) are modelled as
integer milliseconds since the epoch; JSON numbers occurring in the claims
are modelled as integers since only defaulting and threshold comparisons
are at stake.  A missing or null JSON field is modelled as `none`; the
JavaScript defaulting idiom `x || d` on such fields is `Option.getD`.
-/

/-- Ready states of a browser WebSocket, named as the JS constants. -/
inductive WsState
  | CONNECTING
  | OPEN
  | CLOSING
  | CLOSED
deriving DecidableEq, Repr

/-- One depth-of-book snapshot as the client stores it: bids/asks are
(priceString, quantityString) pairs, per the wire format. -/
structure Snapshot where
  bids : List (String × String)
  asks : List (String × String)
  mid_price : Int
  spread : Int
  sequence_id : Int
  timestamp : Int
deriving DecidableEq, Repr

/-- The client's view of the latest snapshot together with the freshness
fields the dashboard reads (page.tsx: data_age_ms and is_stale). -/
structure OrderbookView where
  snapshot : Snapshot
  data_age_ms : Int
  is_stale : Bool
deriving DecidableEq, Repr

/-- The latest HealthSample as stored by the client: the seven fields of
the heartbeat payload. -/
structure Metrics where
  memory_usage_mb : Int
  queue_size : Int
  processing_delay_ms : Int
  server_status : String
  active_clients : Int
  current_scenario : String
  uptime_seconds : Int
deriving DecidableEq, Repr

/-- An incident as stored in the client-side incident log. -/
structure Incident where
  timestamp : Int
  type : String
  details : String
  scenario : String
  uptime : Int
deriving DecidableEq, Repr

/-- The untyped `message.data` payload: handlers read individual fields and
default the missing ones, so every field any handler reads is optional
here.  Covers the union of the orderbook_update, heartbeat, incident_alert
and connection payload fields. -/
structure RawData where
  bids : Option (List (String × String)) := none
  asks : Option (List (String × String)) := none
  mid_price : Option Int := none
  spread : Option Int := none
  sequence_id : Option Int := none
  timestamp : Option Int := none
  memory_usage_mb : Option Int := none
  queue_size : Option Int := none
  processing_delay_ms : Option Int := none
  server_status : Option String := none
  active_clients : Option Int := none
  current_scenario : Option String := none
  uptime_seconds : Option Int := none
  type : Option String := none
  details : Option String := none
  scenario : Option String := none
  uptime : Option Int := none
  message : Option String := none
deriving DecidableEq, Repr

/-- The wire envelope { type, data, timestamp }. -/
structure WireMessage where
  type : String
  data : RawData
  timestamp : Int
deriving DecidableEq, Repr

/-- Modelled from the spec: the dashboard-state hook (useDashboardState.ts)
is not under src/; its state shape is reconstructed from the spec's data
model and from the fields read by page.tsx: the latest Snapshot with
freshness fields, the latest HealthSample, the append-only incident log,
the event log, and the performance-history buffer. -/
structure DashboardState where
  orderbook_data : OrderbookView
  metrics : Metrics
  incidents : List Incident
  logs : List (String × String)
  performance_history : List (Int × Int × Int)
deriving DecidableEq, Repr

/-- The staleness threshold in milliseconds (spec section 8: 500ms). -/
def stalenessThresholdMs : Int := 500

/-- The critical staleness threshold in milliseconds (spec section 8 and
page.tsx freshness rendering: 1000ms). -/
def criticalThresholdMs : Int := 1000

/-- Modelled from the spec: the event log append performed by addLog of the
missing useDashboardState.ts; a (level, text) entry appended by arrival. -/
def addLog (st : DashboardState) (level text : String) : DashboardState :=
  { st with logs := st.logs ++ [(level, text)] }

/-- Modelled from the spec: addIncident of the missing useDashboardState.ts
appends the carried Incident to the local log as-is, append-only, never
deduplicated, ordered by arrival. -/
def addIncident (i : Incident) (st : DashboardState) : DashboardState :=
  { st with incidents := st.incidents ++ [i] }

/-- Modelled from the spec: updateMetrics of the missing
useDashboardState.ts replaces the locally held latest HealthSample. -/
def updateMetrics (m : Metrics) (st : DashboardState) : DashboardState :=
  { st with metrics := m }

/-- Modelled from the spec: updatePerformanceHistory of the missing
useDashboardState.ts appends one (memory, queue, delay) sample. -/
def updatePerformanceHistory (mem q delay : Int) (st : DashboardState) :
    DashboardState :=
  { st with performance_history := st.performance_history ++ [(mem, q, delay)] }

/-- Modelled from the spec: the staleness Incident appended by the
subscriber client when data age crosses the critical threshold. -/
def stalenessIncident (now : Int) (scen : String) (age : Int) : Incident :=
  { timestamp := now
    type := "data_staleness"
    details := "data age " ++ toString age ++ "ms exceeds critical threshold"
    scenario := scen
    uptime := 0 }

/-- Modelled from the spec: updateOrderbook of the missing
useDashboardState.ts replaces the locally held latest Snapshot, computes
data_age = now - message.timestamp, marks is_stale = data_age >
staleness_threshold (500ms), and, when is_stale and data_age also exceeds
the critical threshold (1000ms), appends one staleness Incident. -/
def updateOrderbook (now : Int) (s : Snapshot) (st : DashboardState) :
    DashboardState :=
  let age := now - s.timestamp
  let stale : Bool := age > stalenessThresholdMs
  let base :=
    { st with orderbook_data := { snapshot := s, data_age_ms := age, is_stale := stale } }
  if stale = true ∧ age > criticalThresholdMs then
    addIncident (stalenessIncident now st.metrics.current_scenario age) base
  else
    base

/-- Client-side connection state of the useWebSocket hook: the two useState
values, the WebSocket ref, the pending-reconnect-timer ref (delay of the
pending setTimeout, if any), the connect guard flag, and the dashboard
state. -/
structure ClientState where
  isConnected : Bool
  error : Option String
  ws : Option WsState
  reconnectTimeout : Option Nat
  isConnecting : Bool
  dashboard : DashboardState
deriving DecidableEq, Repr

/-- Outbound client-to-server messages: the subscription request sent with
client identifier and timestamp (useWebSocket.ts lines 53-59). -/
inductive OutMessage
  | subscribe (client_id : String) (timestamp : Int)
deriving DecidableEq, Repr

/-- Result of running one event handler: the new client state plus the
observable effects the handler performed — channel sends, reconnect timers
set (their delays, in order), clearTimeout calls, and ws.close calls (the
close codes passed). -/
structure HandlerResult where
  state : ClientState
  sends : List OutMessage := []
  timersSet : List Nat := []
  timersCleared : Nat := 0
  closes : List Nat := []
deriving DecidableEq, Repr

/-- The ws.onopen handler (useWebSocket.ts lines 32-38): set connected,
clear the error, drop the connecting guard, log.  It sends nothing. -/
def onOpen (st : ClientState) : HandlerResult :=
  { state :=
      { st with
        isConnected := true
        error := none
        isConnecting := false
        dashboard := addLog st.dashboard "INFO" "WebSocket connected successfully" } }

/-- The snapshot handed to updateOrderbook by the orderbook_update case
(useWebSocket.ts lines 73-80): every missing field is defaulted — empty
lists for bids/asks, 0 for the numbers, the local receipt time for the
timestamp. -/
def snapshotOfData (now : Int) (d : RawData) : Snapshot :=
  { bids := d.bids.getD []
    asks := d.asks.getD []
    mid_price := d.mid_price.getD 0
    spread := d.spread.getD 0
    sequence_id := d.sequence_id.getD 0
    timestamp := d.timestamp.getD now }

/-- The metrics handed to updateMetrics by the heartbeat case
(useWebSocket.ts lines 85-93), defaults included. -/
def metricsOfData (d : RawData) : Metrics :=
  { memory_usage_mb := d.memory_usage_mb.getD 0
    queue_size := d.queue_size.getD 0
    processing_delay_ms := d.processing_delay_ms.getD 0
    server_status := d.server_status.getD "unknown"
    active_clients := d.active_clients.getD 0
    current_scenario := d.current_scenario.getD "unknown"
    uptime_seconds := d.uptime_seconds.getD 0 }

/-- The incident handed to addIncident by the incident_alert case
(useWebSocket.ts lines 105-111), defaults included. -/
def incidentOfData (now : Int) (d : RawData) : Incident :=
  { timestamp := d.timestamp.getD now
    type := d.type.getD "Unknown"
    details := d.details.getD "No details provided"
    scenario := d.scenario.getD "unknown"
    uptime := d.uptime.getD 0 }

/-- The ws.onmessage handler (useWebSocket.ts lines 40-122).  `parsed` is
the result of JSON.parse on the event data: `none` models a malformed
message (the catch branch).  `now` is the local receipt time, used both for
the subscription timestamp and for the payload-timestamp defaults. -/
def onMessage (st : ClientState) (now : Int) (parsed : Option WireMessage) :
    HandlerResult :=
  match parsed with
  | none =>
      { state :=
          { st with
            dashboard := addLog st.dashboard "ERROR" "Failed to parse WebSocket message" } }
  | some m =>
      if m.type = "connection" then
        let st1 :=
          { st with
            dashboard := addLog st.dashboard "INFO"
              ("Connected to server: " ++ m.data.message.getD "undefined") }
        if st.ws = some WsState.OPEN then
          { state := st1, sends := [OutMessage.subscribe "nextjs_dashboard" now] }
        else
          { state := st1 }
      else if m.type = "orderbook_update" then
        { state :=
            { st with dashboard := updateOrderbook now (snapshotOfData now m.data) st.dashboard } }
      else if m.type = "heartbeat" then
        let d1 := updateMetrics (metricsOfData m.data) st.dashboard
        let d2 := updatePerformanceHistory (m.data.memory_usage_mb.getD 0)
          (m.data.queue_size.getD 0) (m.data.processing_delay_ms.getD 0) d1
        { state := { st with dashboard := d2 } }
      else if m.type = "incident_alert" then
        let d1 := addIncident (incidentOfData now m.data) st.dashboard
        let d2 := addLog d1 "INCIDENT"
          ("Incident: " ++ m.data.type.getD "undefined" ++ " - " ++
            m.data.details.getD "undefined")
        { state := { st with dashboard := d2 } }
      else
        { state := st }

/-- The ws.onclose handler (useWebSocket.ts lines 124-141): mark
disconnected, drop the guard, log; when the close code is not 1000, clear
any pending reconnect timer and schedule one reconnect after the fixed
3000ms backoff; when the code is 1000 (clean close), schedule nothing. -/
def onClose (st : ClientState) (code : Nat) : HandlerResult :=
  let st1 :=
    { st with
      isConnected := false
      isConnecting := false
      ws := some WsState.CLOSED
      dashboard := addLog st.dashboard "WARNING"
        ("WebSocket connection lost (" ++ toString code ++ ")") }
  if code ≠ 1000 then
    { state := { st1 with reconnectTimeout := some 3000 }
      timersSet := [3000]
      timersCleared := if st.reconnectTimeout.isSome then 1 else 0 }
  else
    { state := st1 }

/-- The connect function (useWebSocket.ts lines 20-30): when the guard flag
is set or the channel is already open it returns without doing anything;
otherwise it raises the guard and opens a new WebSocket.  The Bool records
whether a connect attempt was actually started. -/
def connect (st : ClientState) : ClientState × Bool :=
  if st.isConnecting = true ∨ st.ws = some WsState.OPEN then
    (st, false)
  else
    ({ st with isConnecting := true, ws := some WsState.CONNECTING }, true)

/-- The useEffect cleanup on unmount (useWebSocket.ts lines 163-170):
clear any pending reconnect timer, then close the channel with
normal-closure code 1000. -/
def cleanup (st : ClientState) : HandlerResult :=
  { state := { st with reconnectTimeout := none, ws := st.ws.map (fun _ => WsState.CLOSING) }
    timersCleared := if st.reconnectTimeout.isSome then 1 else 0
    closes := if st.ws.isSome then [1000] else [] }

/-- A concrete initial client state, mirroring the hook's useState/useRef
initial values and an empty dashboard. -/
def initState : ClientState :=
  { isConnected := false
    error := none
    ws := none
    reconnectTimeout := none
    isConnecting := false
    dashboard :=
      { orderbook_data :=
          { snapshot :=
              { bids := [], asks := [], mid_price := 0, spread := 0,
                sequence_id := 0, timestamp := 0 }
            data_age_ms := 0
            is_stale := false }
        metrics :=
          { memory_usage_mb := 0, queue_size := 0, processing_delay_ms := 0,
            server_status := "unknown", active_clients := 0,
            current_scenario := "unknown", uptime_seconds := 0 }
        incidents := []
        logs := []
        performance_history := [] } }

/-- A state in which a connect attempt is in flight (the guard flag is
raised, the socket still connecting). -/
def connectingState : ClientState :=
  { initState with isConnecting := true, ws := some WsState.CONNECTING }

/-- A state with an open channel. -/
def openState : ClientState :=
  { initState with ws := some WsState.OPEN, isConnected := true }

/-- A state with an open channel and a pending reconnect timer. -/
def liveState : ClientState :=
  { initState with
      ws := some WsState.OPEN
      isConnected := true
      reconnectTimeout := some 3000 }

/-- C1: on channel closure with a code other than 1000 the client schedules
exactly one reconnect attempt, after the fixed 3000ms backoff; on closure
with code 1000 it schedules none. -/
theorem close_code_reconnect_scheduling (st : ClientState) (code : Nat) :
    (code ≠ 1000 → (onClose st code).timersSet = [3000]) ∧
    (code = 1000 → (onClose st code).timersSet = []) := by
  constructor
  · intro h
    simp [onClose, h]
  · intro h
    simp [onClose, h]

/-- C1 witness: closing with code 1001 schedules one 3000ms reconnect;
closing with code 1000 schedules none. -/
theorem close_code_reconnect_scheduling_witness :
    (onClose openState 1001).timersSet = [3000] ∧
    (onClose openState 1000).timersSet = [] :=
  ⟨(close_code_reconnect_scheduling openState 1001).1 (by decide),
   (close_code_reconnect_scheduling openState 1000).2 rfl⟩

/-- C4: a connect call while a previous attempt is still connecting or
while the channel is already open performs no action (the guard returns
the state unchanged and starts no attempt); and scheduling a reconnect on
a non-clean close first clears any previously pending reconnect timer,
leaving exactly the one new 3000ms timer pending. -/
theorem single_connect_in_flight (st : ClientState) (code : Nat) :
    (st.isConnecting = true ∨ st.ws = some WsState.OPEN →
      connect st = (st, false)) ∧
    (code ≠ 1000 → st.reconnectTimeout.isSome = true →
      (onClose st code).timersCleared = 1 ∧
      (onClose st code).state.reconnectTimeout = some 3000) := by
  constructor
  · intro h
    unfold connect
    rw [if_pos h]
  · intro h1 h2
    constructor
    · simp [onClose, h1, h2]
    · simp [onClose, h1]

/-- C4 witness: connect on an in-flight state is a no-op, and a non-clean
close on a state with a pending timer clears that timer and leaves the
single fresh one. -/
theorem single_connect_in_flight_witness :
    (connect connectingState = (connectingState, false)) ∧
    ((onClose liveState 1006).timersCleared = 1 ∧
     (onClose liveState 1006).state.reconnectTimeout = some 3000) :=
  ⟨(single_connect_in_flight connectingState 1006).1 (Or.inl rfl),
   (single_connect_in_flight liveState 1006).2 (by decide) (by decide)⟩

/-- C9: the unmount cleanup cancels any pending reconnect timer and closes
the channel with normal-closure code 1000; the close event that follows
(code 1000) schedules no reconnect, so no reconnect attempt occurs after
teardown. -/
theorem teardown_cancels_reconnect (st : ClientState) :
    (cleanup st).state.reconnectTimeout = none ∧
    (st.reconnectTimeout.isSome = true → (cleanup st).timersCleared = 1) ∧
    (st.ws.isSome = true → (cleanup st).closes = [1000]) ∧
    (onClose (cleanup st).state 1000).timersSet = [] ∧
    (onClose (cleanup st).state 1000).state.reconnectTimeout = none := by
  refine ⟨rfl, ?_, ?_, ?_, ?_⟩
  · intro h
    simp [cleanup, h]
  · intro h
    simp [cleanup, h]
  · simp [onClose]
  · simp [onClose, cleanup]

/-- C9 witness: tearing down a live client with a pending reconnect timer
cancels the timer, closes with 1000, and the subsequent clean-close event
leaves nothing scheduled. -/
theorem teardown_cancels_reconnect_witness :
    (cleanup liveState).state.reconnectTimeout = none ∧
    (cleanup liveState).timersCleared = 1 ∧
    (cleanup liveState).closes = [1000] ∧
    (onClose (cleanup liveState).state 1000).timersSet = [] ∧
    (onClose (cleanup liveState).state 1000).state.reconnectTimeout = none :=
  ⟨(teardown_cancels_reconnect liveState).1,
   (teardown_cancels_reconnect liveState).2.1 (by decide),
   (teardown_cancels_reconnect liveState).2.2.1 (by decide),
   (teardown_cancels_reconnect liveState).2.2.2.1,
   (teardown_cancels_reconnect liveState).2.2.2.2⟩

/-- C5: a malformed inbound message (JSON parse failure) is logged and
dropped: the latest Snapshot view, the metrics and the incident log are
unchanged, exactly one ERROR log entry is appended, the socket and the
connected flag are untouched, and the handler sends nothing and closes
nothing. -/
theorem malformed_message_dropped (st : ClientState) (now : Int) :
    (onMessage st now none).state.dashboard.orderbook_data
      = st.dashboard.orderbook_data ∧
    (onMessage st now none).state.dashboard.metrics = st.dashboard.metrics ∧
    (onMessage st now none).state.dashboard.incidents
      = st.dashboard.incidents ∧
    (onMessage st now none).state.dashboard.logs
      = st.dashboard.logs ++ [("ERROR", "Failed to parse WebSocket message")] ∧
    (onMessage st now none).state.ws = st.ws ∧
    (onMessage st now none).state.isConnected = st.isConnected ∧
    (onMessage st now none).sends = [] ∧
    (onMessage st now none).closes = [] := by
  simp [onMessage, addLog]

/-- C6: a well-formed message whose tag is none of connection,
orderbook_update, heartbeat or incident_alert leaves the whole client
state unchanged and produces no effects. -/
theorem unknown_tag_ignored (st : ClientState) (now mt : Int) (tag : String)
    (d : RawData)
    (h1 : tag ≠ "connection") (h2 : tag ≠ "orderbook_update")
    (h3 : tag ≠ "heartbeat") (h4 : tag ≠ "incident_alert") :
    onMessage st now (some { type := tag, data := d, timestamp := mt })
      = { state := st } := by
  simp [onMessage, h1, h2, h3, h4]

/-- C6 witness: a message tagged "mystery" is ignored entirely. -/
theorem unknown_tag_ignored_witness :
    onMessage initState 0 (some { type := "mystery", data := {}, timestamp := 0 })
      = { state := initState } :=
  unknown_tag_ignored initState 0 0 "mystery" {}
    (by decide) (by decide) (by decide) (by decide)

/-- Dispatch lemma: an orderbook_update message routes to updateOrderbook
on the snapshot built with defaults, and has no other effect on the client
state. -/
theorem onMessage_orderbook_state (st : ClientState) (now mt : Int)
    (d : RawData) :
    (onMessage st now (some { type := "orderbook_update", data := d, timestamp := mt })).state
      = { st with dashboard := updateOrderbook now (snapshotOfData now d) st.dashboard } := by
  simp [onMessage]

/-- The orderbook view written by updateOrderbook: the snapshot is stored
as given, data_age_ms is now minus the snapshot timestamp, and is_stale
records whether that age exceeds the staleness threshold. -/
theorem updateOrderbook_view (now : Int) (s : Snapshot) (st : DashboardState) :
    (updateOrderbook now s st).orderbook_data
      = { snapshot := s
          data_age_ms := now - s.timestamp
          is_stale := decide (now - s.timestamp > stalenessThresholdMs) } := by
  simp only [updateOrderbook]
  split <;> simp [addIncident]

/-- The incident log written by updateOrderbook: one staleness Incident is
appended exactly when the data age exceeds the critical threshold. -/
theorem updateOrderbook_incidents (now : Int) (s : Snapshot)
    (st : DashboardState) :
    (updateOrderbook now s st).incidents
      = st.incidents ++
        (if now - s.timestamp > criticalThresholdMs then
          [stalenessIncident now st.metrics.current_scenario (now - s.timestamp)]
        else []) := by
  simp only [updateOrderbook]
  by_cases h : now - s.timestamp > criticalThresholdMs
  · rw [if_pos, if_pos h]
    · simp [addIncident]
    · refine ⟨?_, h⟩
      simp only [stalenessThresholdMs, criticalThresholdMs] at *
      simp only [decide_eq_true_eq]
      omega
  · rw [if_neg, if_neg h]
    · simp
    · simp only [criticalThresholdMs] at h
      simp only [stalenessThresholdMs, criticalThresholdMs, decide_eq_true_eq]
      omega

/-- C7: a heartbeat message replaces the locally held latest HealthSample
with exactly the seven payload fields (each defaulted when missing); the
latest Snapshot view and the incident log are unchanged. -/
theorem heartbeat_replaces_metrics (st : ClientState) (now mt : Int)
    (d : RawData) :
    (onMessage st now (some { type := "heartbeat", data := d, timestamp := mt })).state.dashboard.metrics
      = { memory_usage_mb := d.memory_usage_mb.getD 0
          queue_size := d.queue_size.getD 0
          processing_delay_ms := d.processing_delay_ms.getD 0
          server_status := d.server_status.getD "unknown"
          active_clients := d.active_clients.getD 0
          current_scenario := d.current_scenario.getD "unknown"
          uptime_seconds := d.uptime_seconds.getD 0 } ∧
    (onMessage st now (some { type := "heartbeat", data := d, timestamp := mt })).state.dashboard.orderbook_data
      = st.dashboard.orderbook_data ∧
    (onMessage st now (some { type := "heartbeat", data := d, timestamp := mt })).state.dashboard.incidents
      = st.dashboard.incidents := by
  refine ⟨?_, ?_, ?_⟩ <;>
    simp [onMessage, updateMetrics, updatePerformanceHistory, metricsOfData]

/-- C8: an incident_alert message appends the carried Incident to the local
incident log, leaving every existing entry in place; receiving the
identical message twice appends it twice, in arrival order. -/
theorem incident_alert_appends (st : ClientState) (now mt : Int)
    (d : RawData) :
    (onMessage st now (some { type := "incident_alert", data := d, timestamp := mt })).state.dashboard.incidents
      = st.dashboard.incidents ++ [incidentOfData now d] ∧
    (onMessage (onMessage st now (some { type := "incident_alert", data := d, timestamp := mt })).state
        now (some { type := "incident_alert", data := d, timestamp := mt })).state.dashboard.incidents
      = st.dashboard.incidents ++ [incidentOfData now d, incidentOfData now d] := by
  constructor <;> simp [onMessage, addIncident, addLog]

/-- C10: for every orderbook_update payload, the handler stores a Snapshot
whose every field is defined: missing bids/asks become empty lists, missing
mid_price, spread and sequence_id become 0, and a missing timestamp becomes
the local receipt time; in particular the empty payload yields the
all-default Snapshot. -/
theorem orderbook_update_total_defaults (st : ClientState) (now mt : Int)
    (d : RawData) :
    (onMessage st now (some { type := "orderbook_update", data := d, timestamp := mt })).state.dashboard.orderbook_data.snapshot
      = { bids := d.bids.getD []
          asks := d.asks.getD []
          mid_price := d.mid_price.getD 0
          spread := d.spread.getD 0
          sequence_id := d.sequence_id.getD 0
          timestamp := d.timestamp.getD now } ∧
    (onMessage st now (some { type := "orderbook_update", data := {}, timestamp := mt })).state.dashboard.orderbook_data.snapshot
      = { bids := [], asks := [], mid_price := 0, spread := 0,
          sequence_id := 0, timestamp := now } := by
  constructor
  · rw [onMessage_orderbook_state]
    simp [updateOrderbook_view, snapshotOfData]
  · rw [onMessage_orderbook_state]
    simp [updateOrderbook_view, snapshotOfData]

/-- C3 counterexample: in the state where a connect attempt has just been
started, the channel-open handler performs no send at all — in particular
it does not send the subscription request at the connecting-to-connected
transition, contrary to the claim. -/
theorem subscribe_not_sent_on_open : (onOpen connectingState).sends = [] :=
  rfl

/-- C3 (amended): the subscription request, carrying the client identifier
"nextjs_dashboard" and a timestamp, is sent when the connection-ack
message is received while the channel is open — one send per connection-ack
received, with no wait for any acknowledgment; the channel-open handler
itself sends nothing. -/
theorem subscribe_sent_on_connection_ack (st : ClientState) (now mt : Int)
    (d : RawData) (h : st.ws = some WsState.OPEN) :
    (onMessage st now (some { type := "connection", data := d, timestamp := mt })).sends
      = [OutMessage.subscribe "nextjs_dashboard" now] ∧
    (onOpen st).sends = [] := by
  constructor
  · simp [onMessage, h]
  · rfl

/-- C3 witness: on an open channel, the connection-ack message triggers the
one subscription send. -/
theorem subscribe_sent_on_connection_ack_witness :
    openState.ws = some WsState.OPEN ∧
    ((onMessage openState 5 (some { type := "connection", data := {}, timestamp := 5 })).sends
        = [OutMessage.subscribe "nextjs_dashboard" 5] ∧
      (onOpen openState).sends = []) :=
  ⟨by decide, subscribe_sent_on_connection_ack openState 5 5 {} (by decide)⟩

/-- C2: an orderbook_update message with payload timestamp T replaces the
locally held latest Snapshot, sets data_age to the local receipt time minus
T, sets is_stale exactly when the data age exceeds the 500ms staleness
threshold, and appends exactly one staleness Incident exactly when the data
age also exceeds the 1000ms critical threshold. -/
theorem orderbook_update_staleness (st : ClientState) (now T mt : Int)
    (d : RawData) (h : d.timestamp = some T) :
    (onMessage st now (some { type := "orderbook_update", data := d, timestamp := mt })).state.dashboard.orderbook_data.snapshot
      = snapshotOfData now d ∧
    (onMessage st now (some { type := "orderbook_update", data := d, timestamp := mt })).state.dashboard.orderbook_data.data_age_ms
      = now - T ∧
    ((onMessage st now (some { type := "orderbook_update", data := d, timestamp := mt })).state.dashboard.orderbook_data.is_stale
        = true ↔ now - T > stalenessThresholdMs) ∧
    (onMessage st now (some { type := "orderbook_update", data := d, timestamp := mt })).state.dashboard.incidents
      = st.dashboard.incidents ++
        (if now - T > criticalThresholdMs then
          [stalenessIncident now st.dashboard.metrics.current_scenario (now - T)]
        else []) := by
  have hs : (snapshotOfData now d).timestamp = T := by simp [snapshotOfData, h]
  refine ⟨?_, ?_, ?_, ?_⟩
  · rw [onMessage_orderbook_state]
    simp [updateOrderbook_view]
  · rw [onMessage_orderbook_state]
    simp [updateOrderbook_view, hs]
  · rw [onMessage_orderbook_state]
    simp [updateOrderbook_view, hs]
  · rw [onMessage_orderbook_state]
    simp [updateOrderbook_incidents, hs]

/-- C2 witness: a snapshot timestamped 0 received at 1200 is marked stale
and yields exactly one staleness Incident; the same snapshot received at
100 is not stale and yields none. -/
theorem orderbook_update_staleness_witness :
    (onMessage initState 1200 (some { type := "orderbook_update", data := { timestamp := some 0 }, timestamp := 1200 })).state.dashboard.orderbook_data.is_stale
      = true ∧
    (onMessage initState 1200 (some { type := "orderbook_update", data := { timestamp := some 0 }, timestamp := 1200 })).state.dashboard.incidents
      = [stalenessIncident 1200 "unknown" 1200] ∧
    (onMessage initState 100 (some { type := "orderbook_update", data := { timestamp := some 0 }, timestamp := 100 })).state.dashboard.orderbook_data.is_stale
      = false ∧
    (onMessage initState 100 (some { type := "orderbook_update", data := { timestamp := some 0 }, timestamp := 100 })).state.dashboard.incidents
      = [] := by
  have h1 := orderbook_update_staleness initState 1200 0 1200 { timestamp := some 0 } rfl
  have h2 := orderbook_update_staleness initState 100 0 100 { timestamp := some 0 } rfl
  refine ⟨?_, ?_, ?_, ?_⟩
  · exact h1.2.2.1.mpr (by norm_num [stalenessThresholdMs])
  · have := h1.2.2.2
    simpa [initState, criticalThresholdMs] using this
  · have := h2.2.2.1
    rw [Bool.eq_false_iff]
    intro hb
    have := this.mp hb
    norm_num [stalenessThresholdMs] at this
  · have := h2.2.2.2
    simpa [initState, criticalThresholdMs] using this
